import Mathlib

/-!
# Gorouter start-up code and the counterfeiter access-logger fake

A shallow embedding of `main.go` (process start-up of the router) and of
`access_log/fakes/fake_access_logger.go`.

Conventions of the embedding:

* Go `string` is `String`, Go `int` and `time.Duration` are `Int`.
* A Go function returning `(T, error)` is a function into `Except Err T`;
  a function returning only `error` is a function into `Option Err`
  (`none` is the nil error).
* Library calls whose code is not part of `main.go` are fields of `Env`.
* A computation that can log, call out, `os.Exit` or panic is a `Run α`:
  the list of observable events it produced and how it ended.
-/

namespace Gorouter

/-! ## access_log/fakes/fake_access_logger.go -/

namespace Fakes

/-- The fake, over a record type `R` and a type `W` for the state the stubs
act on.  The three mutexes only serialise access and carry no data, so they
have no field here; a stub of type `func()` is a transformer of `W`. -/
structure FakeAccessLogger (R W : Type) where
  RunStub : Option (W → W)
  runArgsForCall : List Unit
  StopStub : Option (W → W)
  stopArgsForCall : List Unit
  LogStub : Option (R → W → W)
  logArgsForCall : List R

/-- The Go zero value: nil stubs, nil slices. -/
def FakeAccessLogger.zero (R W : Type) : FakeAccessLogger R W :=
  { RunStub := none, runArgsForCall := [], StopStub := none, stopArgsForCall := [],
    LogStub := none, logArgsForCall := [] }

variable {R W : Type}

/-- `func (fake *FakeAccessLogger) Run()`. -/
def FakeAccessLogger.Run (fake : FakeAccessLogger R W) (w : W) : FakeAccessLogger R W × W :=
  let fake1 := { fake with runArgsForCall := fake.runArgsForCall ++ [()] }
  match fake1.RunStub with
  | some stub => (fake1, stub w)
  | none => (fake1, w)

/-- `func (fake *FakeAccessLogger) RunCallCount() int`. -/
def FakeAccessLogger.RunCallCount (fake : FakeAccessLogger R W) : Int :=
  fake.runArgsForCall.length

/-- `func (fake *FakeAccessLogger) Stop()`. -/
def FakeAccessLogger.Stop (fake : FakeAccessLogger R W) (w : W) : FakeAccessLogger R W × W :=
  let fake1 := { fake with stopArgsForCall := fake.stopArgsForCall ++ [()] }
  match fake1.StopStub with
  | some stub => (fake1, stub w)
  | none => (fake1, w)

/-- `func (fake *FakeAccessLogger) StopCallCount() int`. -/
def FakeAccessLogger.StopCallCount (fake : FakeAccessLogger R W) : Int :=
  fake.stopArgsForCall.length

/-- `func (fake *FakeAccessLogger) Log(record access_log.AccessLogRecord)`. -/
def FakeAccessLogger.Log (fake : FakeAccessLogger R W) (record : R) (w : W) :
    FakeAccessLogger R W × W :=
  let fake1 := { fake with logArgsForCall := fake.logArgsForCall ++ [record] }
  match fake1.LogStub with
  | some stub => (fake1, stub record w)
  | none => (fake1, w)

/-- `func (fake *FakeAccessLogger) LogCallCount() int`. -/
def FakeAccessLogger.LogCallCount (fake : FakeAccessLogger R W) : Int :=
  fake.logArgsForCall.length

/-- `func (fake *FakeAccessLogger) LogArgsForCall(i int) access_log.AccessLogRecord`.
Indexing a slice out of range panics in Go: that is `none`. -/
def FakeAccessLogger.LogArgsForCall (fake : FakeAccessLogger R W) (i : Int) : Option R :=
  if i < 0 then none else fake.logArgsForCall[i.toNat]?

/-- What a test can do with the fake: call a method, or assign a stub field. -/
inductive Call (R W : Type) where
  | run
  | stop
  | log (record : R)
  | setRunStub (stub : Option (W → W))
  | setStopStub (stub : Option (W → W))
  | setLogStub (stub : Option (R → W → W))

/-- One operation on the fake. -/
def step (s : FakeAccessLogger R W × W) : Call R W → FakeAccessLogger R W × W
  | .run => s.1.Run s.2
  | .stop => s.1.Stop s.2
  | .log record => s.1.Log record s.2
  | .setRunStub stub => ({ s.1 with RunStub := stub }, s.2)
  | .setStopStub stub => ({ s.1 with StopStub := stub }, s.2)
  | .setLogStub stub => ({ s.1 with LogStub := stub }, s.2)

/-- A sequence of operations, in order. -/
def runCalls (s : FakeAccessLogger R W × W) (calls : List (Call R W)) : FakeAccessLogger R W × W :=
  calls.foldl step s

/-- Number of `Run` calls in a sequence. -/
def runCallsMade : List (Call R W) → Nat
  | [] => 0
  | .run :: cs => runCallsMade cs + 1
  | _ :: cs => runCallsMade cs

/-- Number of `Stop` calls in a sequence. -/
def stopCallsMade : List (Call R W) → Nat
  | [] => 0
  | .stop :: cs => stopCallsMade cs + 1
  | _ :: cs => stopCallsMade cs

/-- The records passed to `Log`, in call order. -/
def recordsLogged : List (Call R W) → List R
  | [] => []
  | .log record :: cs => record :: recordsLogged cs
  | _ :: cs => recordsLogged cs

/-- Number of `Log` calls in a sequence. -/
def logCallsMade : List (Call R W) → Nat
  | [] => 0
  | .log _ :: cs => logCallsMade cs + 1
  | _ :: cs => logCallsMade cs

end Fakes

/-! ## main.go: data -/

abbrev Err := String
abbrev Bytes := List UInt8

/-- `[]byte(s)` for a Go string. -/
def goBytes (s : String) : Bytes := s.toUTF8.data.toList

/-- `config.Config.Logging`, the fields `main.go` reads. -/
structure LoggingConfig where
  File : String
  Syslog : String
  Level : String
  MetronAddress : String
  JobName : String
deriving DecidableEq, Repr

/-- `config.Config.RoutingApi`. -/
structure RoutingApiConfig where
  Uri : String
  Port : Int
  AuthDisabled : Bool
deriving DecidableEq, Repr

/-- `config.Config.OAuth`. -/
structure OAuthConfig where
  TokenEndpoint : String
  Port : Int
  SkipOAuthTLSVerification : Bool
  ClientName : String
  ClientSecret : String
deriving DecidableEq, Repr

/-- `config.Config`, the fields `main.go` reads. -/
structure Config where
  Logging : LoggingConfig
  GoMaxProcs : Int
  DebugAddr : String
  EndpointTimeout : Int
  Ip : String
  TraceKey : String
  SecureCookies : Bool
  CipherSuites : List Nat
  SSLSkipValidation : Bool
  RouteServiceEnabled : Bool
  RouteServiceSecret : String
  RouteServiceSecretPrev : String
  RouteServiceTimeout : Int
  RouteServiceRecommendHttps : Bool
  ExtraHeadersToLog : List String
  RoutingApi : RoutingApiConfig
  OAuth : OAuthConfig
  TokenFetcherMaxRetries : Int
  TokenFetcherRetryInterval : Int
  TokenFetcherExpirationBufferTimeInSeconds : Int
deriving DecidableEq, Repr

/-- `lager.Logger`. -/
structure Logger where
  component : String
deriving DecidableEq, Repr

/-- `*vcap.LogCounter`. -/
structure LogCounter where
  id : Nat
deriving DecidableEq, Repr

/-- `steno.LogLevel`. -/
structure LogLevel where
  name : String
deriving DecidableEq, Repr

/-- `steno.Sink`, by the constructor `InitLoggerFromConfig` builds it with. -/
inductive Sink where
  | file (path : String)
  | stdout
  | syslog (namespace_ : String)
  | counter (logCounter : LogCounter)
deriving DecidableEq, Repr

/-- `steno.Config`; the codec is always `steno.NewJsonCodec()`. -/
structure StenoConfig where
  Sinks : List Sink
  Level : LogLevel
deriving DecidableEq, Repr

/-- `yagnats.NATSConn` as `yagnats.Connect` returns it. -/
structure NATSConn where
  id : Nat
deriving DecidableEq, Repr

/-- `nats.Conn`, the argument of a closed-connection callback. -/
structure NatsConn where
  id : Nat
deriving DecidableEq, Repr

structure MetricsReporter where
  id : Nat
deriving DecidableEq, Repr

structure Registry where
  id : Nat
deriving DecidableEq, Repr

structure Varz where
  id : Nat
deriving DecidableEq, Repr

structure Reporter where
  id : Nat
deriving DecidableEq, Repr

structure AccessLogger where
  id : Nat
deriving DecidableEq, Repr

/-- `*secure.AesGCM`. -/
structure AesGCM where
  id : Nat
deriving DecidableEq, Repr

structure Proxy where
  id : Nat
deriving DecidableEq, Repr

structure Router where
  id : Nat
deriving DecidableEq, Repr

structure UaaClient where
  id : Nat
deriving DecidableEq, Repr

structure RoutingApiClient where
  id : Nat
deriving DecidableEq, Repr

structure RouteFetcher where
  id : Nat
deriving DecidableEq, Repr

/-- `tls.Config`, the two fields `buildProxy` sets. -/
structure TLSConfig where
  CipherSuites : List Nat
  InsecureSkipVerify : Bool
deriving DecidableEq, Repr

/-- `proxy.ProxyArgs` as `buildProxy` fills it.  A nil `secure.Crypto` is `none`. -/
structure ProxyArgs where
  EndpointTimeout : Int
  Ip : String
  TraceKey : String
  Registry : Registry
  Reporter : Reporter
  AccessLogger : AccessLogger
  SecureCookies : Bool
  TLSConfig : TLSConfig
  RouteServiceEnabled : Bool
  RouteServiceTimeout : Int
  RouteServiceRecommendHttps : Bool
  Crypto : Option AesGCM
  CryptoPrev : Option AesGCM
  ExtraHeadersToLog : List String
  Logger : Logger
deriving DecidableEq, Repr

/-- `uaa_config.Config`. -/
structure UaaConfig where
  UaaEndpoint : String
  SkipVerification : Bool
  ClientName : String
  ClientSecret : String
  MaxNumberOfRetries : Int
  RetryInterval : Int
  ExpirationBufferInSec : Int
deriving DecidableEq, Repr

/-- The runner of a `grouper.Member`. -/
inductive Runner where
  | router (r : Router)
  | routeFetcher (f : RouteFetcher)
deriving DecidableEq, Repr

/-- `grouper.Member{Name, Runner}`. -/
structure Member where
  Name : String
  Runner : Runner
deriving DecidableEq, Repr

/-- What the process does that can be observed from outside, in order. -/
inductive Event where
  | logInfo (msg : String)
  | logError (msg : String) (err : Option Err)
  | logFatal (msg : String) (err : Err)
  | stenoInit (cfg : StenoConfig)
  | dropsondeInitialize (addr job : String)
  | gomaxprocs (n : Int)
  | debugServerRun (addr : String)
  | connect (call : Nat) (servers : List String)
  | sleep (milliseconds : Int)
  | addClosedCB (client : NATSConn)
  | newPbkdf2 (input : Bytes) (n : Int)
  | newAesGCM (key : Bytes)
  | newProxy (args : ProxyArgs)
  | newClient (cfg : UaaConfig)
  | fetchToken (client : UaaClient) (forceUpdate : Bool)
  | fetchRoutes (fetcher : RouteFetcher)
  | newOrdered (members : List Member)
  | invoke
  | osExit (code : Int)
deriving DecidableEq, Repr

/-- How a computation ends: it returns, the process exits (`os.Exit`), or it
panics (`panic`, `logger.Fatal`, a nil dereference). -/
inductive Outcome (α : Type) where
  | ret (a : α)
  | exit (code : Int)
  | panic (err : Err)
deriving DecidableEq, Repr

/-- A computation of `main.go`: the events it produced and how it ended. -/
structure Run (α : Type) where
  trace : List Event
  out : Outcome α

namespace Run

/-- Sequencing: what follows an exit or a panic does not run. -/
def bind {α β : Type} (x : Run α) (f : α → Run β) : Run β :=
  match x.out with
  | .ret a => ⟨x.trace ++ (f a).trace, (f a).out⟩
  | .exit code => ⟨x.trace, .exit code⟩
  | .panic err => ⟨x.trace, .panic err⟩

instance : Monad Run where
  pure a := ⟨[], .ret a⟩
  bind := Run.bind

end Run

/-- One observable event. -/
def emit (e : Event) : Run Unit := ⟨[e], .ret ()⟩

/-- `os.Exit(code)`. -/
def osExit {α : Type} (code : Int) : Run α := ⟨[.osExit code], .exit code⟩

/-- `panic(err)`. -/
def goPanic {α : Type} (err : Err) : Run α := ⟨[], .panic err⟩

/-- `logger.Info(msg)`. -/
def Logger.Info (_logger : Logger) (msg : String) : Run Unit := emit (.logInfo msg)

/-- `logger.Error(msg, err)`. -/
def Logger.Error (_logger : Logger) (msg : String) (err : Option Err) : Run Unit :=
  emit (.logError msg err)

/-- `logger.Fatal(msg, err)`: lager logs the entry and then panics with `err`. -/
def Logger.Fatal {α : Type} (_logger : Logger) (msg : String) (err : Err) : Run α :=
  ⟨[.logFatal msg err], .panic err⟩

/-- A NATS client together with the closed-connection callbacks installed on
it with `AddClosedCB`. -/
structure NATSClient where
  conn : NATSConn
  closedCBs : List (NatsConn → Run Unit)

/-- `natsClient.AddClosedCB(cb)`. -/
def NATSClient.AddClosedCB (client : NATSClient) (cb : NatsConn → Run Unit) : Run NATSClient := do
  emit (.addClosedCB client.conn)
  pure { client with closedCBs := client.closedCBs ++ [cb] }

/-- The library calls `main.go` makes.  `Connect call servers` is the outcome
of the `call`-th call (counting from 0) of `yagnats.Connect`. -/
structure Env where
  DefaultConfig : Config
  InitConfigFromFile : String → Config
  NewLogCounter : LogCounter
  GetLogLevel : String → Except Err LogLevel
  dropsondeInitialize : String → String → Option Err
  NatsServers : Config → List String
  Connect : Nat → List String → Except Err NATSConn
  NewMetricsReporter : MetricsReporter
  NewRouteRegistry : Config → NATSConn → MetricsReporter → Registry
  NewVarz : Registry → Varz
  NewCompositeReporter : Varz → MetricsReporter → Reporter
  CreateRunningAccessLogger : Config → Except Err AccessLogger
  NewPbkdf2 : Bytes → Int → Bytes
  NewAesGCM : Bytes → Except Err AesGCM
  NewProxy : ProxyArgs → Proxy
  NewRouter : Config → Proxy → NATSConn → Registry → Varz → LogCounter → Except Err Router
  RoutingApiEnabled : Config → Bool
  NewNoOpUaaClient : UaaClient
  NewClient : Logger → UaaConfig → Except Err UaaClient
  FetchToken : UaaClient → Bool → Except Err String
  NewRoutingApiClient : String → RoutingApiClient
  NewRouteFetcher : Logger → UaaClient → Registry → Config → RoutingApiClient → Int → RouteFetcher
  FetchRoutes : RouteFetcher → Option Err
  monitorWait : List Member → Option Err

/-! ## main.go: functions -/

/-- `func createCrypto(logger lager.Logger, secret string) *secure.AesGCM`. -/
def createCrypto (env : Env) (logger : Logger) (secret : String) : Run AesGCM := do
  emit (.newPbkdf2 (goBytes secret) 16)
  let secretPbkdf2 := env.NewPbkdf2 (goBytes secret) 16
  emit (.newAesGCM secretPbkdf2)
  match env.NewAesGCM secretPbkdf2 with
  | .error err => do
    logger.Error "Error creating route service crypto: %s\n" (some err)
    osExit 1
  | .ok crypto => pure crypto

/-- `func buildProxy(logger, c, registry, accessLogger, reporter, crypto, cryptoPrev) proxy.Proxy`;
the `ProxyArgs` literal it builds. -/
def buildProxyArgs (logger : Logger) (c : Config) (registry : Registry)
    (accessLogger : AccessLogger) (reporter : Reporter)
    (crypto : Option AesGCM) (cryptoPrev : Option AesGCM) : ProxyArgs :=
  { EndpointTimeout := c.EndpointTimeout
    Ip := c.Ip
    TraceKey := c.TraceKey
    Registry := registry
    Reporter := reporter
    AccessLogger := accessLogger
    SecureCookies := c.SecureCookies
    TLSConfig := { CipherSuites := c.CipherSuites, InsecureSkipVerify := c.SSLSkipValidation }
    RouteServiceEnabled := c.RouteServiceEnabled
    RouteServiceTimeout := c.RouteServiceTimeout
    RouteServiceRecommendHttps := c.RouteServiceRecommendHttps
    Crypto := crypto
    CryptoPrev := cryptoPrev
    ExtraHeadersToLog := c.ExtraHeadersToLog
    Logger := logger }

/-- `func buildProxy(...) proxy.Proxy`: builds the arguments and calls `proxy.NewProxy`. -/
def buildProxy (env : Env) (logger : Logger) (c : Config) (registry : Registry)
    (accessLogger : AccessLogger) (reporter : Reporter)
    (crypto : Option AesGCM) (cryptoPrev : Option AesGCM) : Run Proxy := do
  let args := buildProxyArgs logger c registry accessLogger reporter crypto cryptoPrev
  emit (.newProxy args)
  pure (env.NewProxy args)

/-- The `uaa_config.Config` literal of `newUaaClient`;
`fmt.Sprintf("https://%s:%d", host, port)` prints the port in decimal. -/
def uaaConfigOf (c : Config) : UaaConfig :=
  let tokenURL := "https://" ++ c.OAuth.TokenEndpoint ++ ":" ++ toString c.OAuth.Port
  { UaaEndpoint := tokenURL
    SkipVerification := c.OAuth.SkipOAuthTLSVerification
    ClientName := c.OAuth.ClientName
    ClientSecret := c.OAuth.ClientSecret
    MaxNumberOfRetries := c.TokenFetcherMaxRetries
    RetryInterval := c.TokenFetcherRetryInterval
    ExpirationBufferInSec := c.TokenFetcherExpirationBufferTimeInSeconds }

/-- `func newUaaClient(logger lager.Logger, clock clock.Clock, c *config.Config) uaa_client.Client`. -/
def newUaaClient (env : Env) (logger : Logger) (c : Config) : Run UaaClient := do
  if c.RoutingApi.AuthDisabled then
    logger.Info "using-noop-token-fetcher"
    pure env.NewNoOpUaaClient
  else
    if c.OAuth.Port = -1 then
      logger.Fatal "tls-not-enabled" "GoRouter requires TLS enabled to get OAuth token"
    let cfg := uaaConfigOf c
    emit (.newClient cfg)
    match env.NewClient logger cfg with
    | .error err => do
      logger.Error "Error creating token fetcher: %s\n" (some err)
      osExit 1
    | .ok uaaClient => pure uaaClient

/-- `func setupRouteFetcher(logger, c, registry) *route_fetcher.RouteFetcher`. -/
def setupRouteFetcher (env : Env) (logger : Logger) (c : Config) (registry : Registry) :
    Run RouteFetcher := do
  let uaaClient ← newUaaClient env logger c
  emit (.fetchToken uaaClient false)
  match env.FetchToken uaaClient false with
  | .error err => do
    logger.Error "Unable to fetch token: " (some err)
    osExit 1
  | .ok _ => pure ()
  let routingApiUri := c.RoutingApi.Uri ++ ":" ++ toString c.RoutingApi.Port
  let routingApiClient := env.NewRoutingApiClient routingApiUri
  let routeFetcher := env.NewRouteFetcher logger uaaClient registry c routingApiClient 1
  pure routeFetcher

/-- The closure `connectToNatsServer` passes to `AddClosedCB`; `err` is the
variable of the enclosing function it captures. -/
def natsClosedCB (logger : Logger) (err : Option Err) (_conn : NatsConn) : Run Unit := do
  logger.Error "Close on NATS client. nats.Conn: " err
  osExit 1

/-- The `for attempts > 0` loop of `connectToNatsServer`: `attempts` is the
loop counter, `calls` the number of calls of `yagnats.Connect` made so far, the
pair the variables `natsClient` and `err`. -/
def connectLoop (env : Env) (natsServers : List String) :
    Nat → Nat → Option NATSConn × Option Err → Run (Option NATSConn × Option Err)
  | 0, _, vars => pure vars
  | attempts + 1, calls, _ => do
    emit (.connect calls natsServers)
    match env.Connect calls natsServers with
    | .ok client => pure (some client, none)
    | .error err => do
      emit (.sleep 100)
      connectLoop env natsServers attempts (calls + 1) (none, some err)

/-- `func connectToNatsServer(logger lager.Logger, c *config.Config) yagnats.NATSConn`. -/
def connectToNatsServer (env : Env) (logger : Logger) (c : Config) : Run NATSClient := do
  let natsServers := env.NatsServers c
  let (natsClient, err) ← connectLoop env natsServers 3 0 (none, none)
  match err with
  | some e => do
    logger.Error "Error connecting to NATS: %s\n" (some e)
    osExit 1
  | none => pure ()
  match natsClient with
  | none => goPanic "invalid memory address or nil pointer dereference"
  | some conn =>
    NATSClient.AddClosedCB { conn := conn, closedCBs := [] } (natsClosedCB logger err)

/-- The sinks `InitLoggerFromConfig` collects, in order. -/
def loggerSinks (c : Config) (logCounter : LogCounter) : List Sink :=
  let s : List Sink := []
  let s := if c.Logging.File ≠ "" then s ++ [Sink.file c.Logging.File] else s ++ [Sink.stdout]
  let s := if c.Logging.Syslog ≠ "" then s ++ [Sink.syslog c.Logging.Syslog] else s
  s ++ [Sink.counter logCounter]

/-- `func InitLoggerFromConfig(c *config.Config, logCounter *vcap.LogCounter)`. -/
def InitLoggerFromConfig (env : Env) (c : Config) (logCounter : LogCounter) : Run Unit :=
  match env.GetLogLevel c.Logging.Level with
  | .error err => goPanic err
  | .ok l => emit (.stenoInit { Sinks := loggerSinks c logCounter, Level := l })

/-- `func main()`, lines 44-85: flags, configuration, logging, dropsonde, NATS,
registry, varz, reporters and the access logger.  Returns the local variables
the rest of `main` uses. -/
def mainStartUp (env : Env) (configFile : String) :
    Run (Config × LogCounter × Logger × NATSClient × Registry × Varz × Reporter × AccessLogger) := do
  let mut c := env.DefaultConfig
  let logCounter := env.NewLogCounter
  if configFile ≠ "" then
    c := env.InitConfigFromFile configFile
  InitLoggerFromConfig env c logCounter
  let logger : Logger := { component := "router.main" }
  emit (.dropsondeInitialize c.Logging.MetronAddress c.Logging.JobName)
  match env.dropsondeInitialize c.Logging.MetronAddress c.Logging.JobName with
  | some err => do
    logger.Error "Dropsonde failed to initialize " (some err)
    osExit 1
  | none => pure ()
  if c.GoMaxProcs ≠ 0 then
    emit (.gomaxprocs c.GoMaxProcs)
  if c.DebugAddr ≠ "" then
    emit (.debugServerRun c.DebugAddr)
  logger.Info "Setting up NATs connection"
  let natsClient ← connectToNatsServer env logger c
  let metricsReporter := env.NewMetricsReporter
  let registry := env.NewRouteRegistry c natsClient.conn metricsReporter
  let varz := env.NewVarz registry
  let compositeReporter := env.NewCompositeReporter varz metricsReporter
  let accessLogger ← match env.CreateRunningAccessLogger c with
    | .error err => logger.Fatal "Error creating access logger: " err
    | .ok accessLogger => pure accessLogger
  pure (c, logCounter, logger, natsClient, registry, varz, compositeReporter, accessLogger)

/-- `func main()`, lines 87-94: the variables `crypto` and `cryptoPrev`. -/
def mainRouteServiceCrypto (env : Env) (logger : Logger) (c : Config) :
    Run (Option AesGCM × Option AesGCM) := do
  let mut crypto : Option AesGCM := none
  let mut cryptoPrev : Option AesGCM := none
  if c.RouteServiceEnabled then
    crypto := some (← createCrypto env logger c.RouteServiceSecret)
    if c.RouteServiceSecretPrev ≠ "" then
      cryptoPrev := some (← createCrypto env logger c.RouteServiceSecretPrev)
  pure (crypto, cryptoPrev)

/-- `func main()`, lines 98-102: `router.NewRouter` and its error check. -/
def mainNewRouter (env : Env) (logger : Logger) (c : Config) (proxy : Proxy)
    (natsClient : NATSClient) (registry : Registry) (varz : Varz) (logCounter : LogCounter) :
    Run Router :=
  match env.NewRouter c proxy natsClient.conn registry varz logCounter with
  | .error err => do
    logger.Error "An error occurred: " (some err)
    osExit 1
  | .ok router => pure router

/-- `func main()`, lines 104-118: the variable `members`. -/
def mainMembers (env : Env) (logger : Logger) (c : Config) (registry : Registry)
    (router : Router) : Run (List Member) := do
  let mut members : List Member := [{ Name := "router", Runner := .router router }]
  if env.RoutingApiEnabled c then
    logger.Info "Setting up route fetcher"
    let routeFetcher ← setupRouteFetcher env logger c registry
    emit (.fetchRoutes routeFetcher)
    match env.FetchRoutes routeFetcher with
    | some err => do
      logger.Error "Failed to connect to the Routing API: %s\n" (some err)
      osExit 1
    | none => pure ()
    members := members ++ [{ Name := "router-fetcher", Runner := .routeFetcher routeFetcher }]
  pure members

/-- `func main()`, lines 120-130: the process group is built, started and
waited for. -/
def mainRunGroup (env : Env) (logger : Logger) (members : List Member) : Run Unit := do
  emit (.newOrdered members)
  emit .invoke
  match env.monitorWait members with
  | some err => do
    logger.Error "gorouter.exited-with-failure: " (some err)
    osExit 1
  | none => pure ()
  osExit 0

/-- `func main()`, given the value of the `-c` flag: the blocks above in the
order of the source. -/
def main (env : Env) (configFile : String) : Run Unit := do
  let (c, logCounter, logger, natsClient, registry, varz, compositeReporter, accessLogger) ←
    mainStartUp env configFile
  let (crypto, cryptoPrev) ← mainRouteServiceCrypto env logger c
  let proxy ← buildProxy env logger c registry accessLogger compositeReporter crypto cryptoPrev
  let router ← mainNewRouter env logger c proxy natsClient registry varz logCounter
  let members ← mainMembers env logger c registry router
  mainRunGroup env logger members

/-! ## Helper definitions for the statements and proofs -/

/-- A configuration with route services and the routing API enabled. -/
def sampleConfig : Config :=
  { Logging := { File := "", Syslog := "vcap.gorouter", Level := "info",
                 MetronAddress := "localhost:3457", JobName := "router" }
    GoMaxProcs := 0
    DebugAddr := ""
    EndpointTimeout := 60
    Ip := "10.0.0.5"
    TraceKey := "trace"
    SecureCookies := true
    CipherSuites := [49199, 49200]
    SSLSkipValidation := false
    RouteServiceEnabled := true
    RouteServiceSecret := "secret"
    RouteServiceSecretPrev := "old"
    RouteServiceTimeout := 30
    RouteServiceRecommendHttps := true
    ExtraHeadersToLog := ["X-Trace"]
    RoutingApi := { Uri := "http://routing-api", Port := 3000, AuthDisabled := false }
    OAuth := { TokenEndpoint := "uaa.example.com", Port := 8443, SkipOAuthTLSVerification := false,
               ClientName := "gorouter", ClientSecret := "pw" }
    TokenFetcherMaxRetries := 3
    TokenFetcherRetryInterval := 5
    TokenFetcherExpirationBufferTimeInSeconds := 30 }

/-- A key derivation for the sample environment: a key of the requested
length filled with the length of the input. -/
def sampleKdf (input : Bytes) (keyLen : Int) : Bytes :=
  List.replicate keyLen.toNat (UInt8.ofNat input.length)

/-- `aes.NewCipher` accepts keys of 16, 24 or 32 bytes; the sample cipher
remembers the length of its key. -/
def sampleAesGCM (key : Bytes) : Except Err AesGCM :=
  if key.length = 16 ∨ key.length = 24 ∨ key.length = 32 then .ok { id := key.length }
  else .error "crypto/aes: invalid key size"

/-- An environment in which every library call succeeds, except the calls of
`yagnats.Connect` before the `firstGood`-th. -/
def sampleEnv (firstGood : Nat) : Env :=
  { DefaultConfig := sampleConfig
    InitConfigFromFile := fun _ => sampleConfig
    NewLogCounter := { id := 0 }
    GetLogLevel := fun name =>
      if name = "info" ∨ name = "debug" then .ok { name := name } else .error "Undefined log level"
    dropsondeInitialize := fun _ _ => none
    NatsServers := fun _ => ["nats://10.0.0.1:4222"]
    Connect := fun call _ => if call < firstGood then .error "nats: no servers available" else .ok { id := call }
    NewMetricsReporter := { id := 0 }
    NewRouteRegistry := fun _ _ _ => { id := 0 }
    NewVarz := fun _ => { id := 0 }
    NewCompositeReporter := fun _ _ => { id := 0 }
    CreateRunningAccessLogger := fun _ => .ok { id := 0 }
    NewPbkdf2 := sampleKdf
    NewAesGCM := sampleAesGCM
    NewProxy := fun _ => { id := 0 }
    NewRouter := fun _ _ _ _ _ _ => .ok { id := 0 }
    RoutingApiEnabled := fun c => c.RoutingApi.Uri ≠ "" && c.RoutingApi.Port ≠ 0
    NewNoOpUaaClient := { id := 0 }
    NewClient := fun _ _ => .ok { id := 1 }
    FetchToken := fun _ _ => .ok "token"
    NewRoutingApiClient := fun _ => { id := 0 }
    NewRouteFetcher := fun _ _ _ _ _ _ => { id := 0 }
    FetchRoutes := fun _ => none
    monitorWait := fun _ => none }

/-- The logger `main` creates. -/
def sampleLogger : Logger := { component := "router.main" }

/-- Number of calls of `yagnats.Connect` in a trace. -/
def connectCalls : List Event → Nat
  | [] => 0
  | .connect _ _ :: t => connectCalls t + 1
  | _ :: t => connectCalls t

/-- Events of the route-service crypto set-up and of `buildProxy`. -/
def Event.isCryptoOrProxy : Event → Bool
  | .newPbkdf2 _ _ => true
  | .newAesGCM _ => true
  | .newProxy _ => true
  | _ => false

/-- Events of the route fetcher set-up and of the process group. -/
def Event.isFetcherOrGroup : Event → Bool
  | .fetchToken _ _ => true
  | .fetchRoutes _ => true
  | .newOrdered _ => true
  | .invoke => true
  | _ => false

/-- Every event of the run satisfies `p`. -/
def Run.All {α : Type} (p : Event → Prop) (x : Run α) : Prop := ∀ e ∈ x.trace, p e

/-- The configuration `main` runs with. -/
def mainConfig (env : Env) (configFile : String) : Config :=
  if configFile ≠ "" then env.InitConfigFromFile configFile else env.DefaultConfig

/-- `func main()` from line 98 on. -/
def mainAfterProxy (env : Env) (logger : Logger) (c : Config) (natsClient : NATSClient)
    (registry : Registry) (varz : Varz) (logCounter : LogCounter) (proxy : Proxy) : Run Unit := do
  let router ← mainNewRouter env logger c proxy natsClient registry varz logCounter
  let members ← mainMembers env logger c registry router
  mainRunGroup env logger members

/-- `func main()` from line 104 on. -/
def mainAfterRouter (env : Env) (logger : Logger) (c : Config) (registry : Registry)
    (router : Router) : Run Unit := do
  let members ← mainMembers env logger c registry router
  mainRunGroup env logger members

/-- Every value the run can return satisfies `q`. -/
def Run.Ret {α : Type} (q : α → Prop) (x : Run α) : Prop := ∀ a, x.out = .ret a → q a

/-- `func main()` from line 87 on, given the local variables of lines 44-85. -/
def mainAfterStartUp (env : Env)
    (s : Config × LogCounter × Logger × NATSClient × Registry × Varz × Reporter × AccessLogger) :
    Run Unit :=
  match s with
  | (c, logCounter, logger, natsClient, registry, varz, compositeReporter, accessLogger) => do
    let (crypto, cryptoPrev) ← mainRouteServiceCrypto env logger c
    let proxy ← buildProxy env logger c registry accessLogger compositeReporter crypto cryptoPrev
    mainAfterProxy env logger c natsClient registry varz logCounter proxy

/-- The sample environment with an AES implementation that rejects every key. -/
def sampleEnvBadKey : Env :=
  { sampleEnv 0 with NewAesGCM := fun _ => .error "crypto/aes: invalid key size" }

/-- The sample environment with a routing API that cannot be reached. -/
def sampleEnvNoRoutingApi : Env :=
  { sampleEnv 0 with FetchRoutes := fun _ => some "routing api unavailable" }

/-- The `ProxyArgs` of the sample run. -/
def sampleProxyArgs : ProxyArgs :=
  buildProxyArgs sampleLogger sampleConfig { id := 0 } { id := 0 } { id := 0 }
    (some { id := 16 }) (some { id := 16 })

/-- The router-fetcher that `setupRouteFetcher` builds around a client. -/
def fetcherOf (env : Env) (logger : Logger) (c : Config) (registry : Registry)
    (client : UaaClient) : RouteFetcher :=
  env.NewRouteFetcher logger client registry c
    (env.NewRoutingApiClient (c.RoutingApi.Uri ++ ":" ++ toString c.RoutingApi.Port)) 1

/-- What `main` does from line 104 on, about the route fetcher and the
process group. -/
def TailSpec (env : Env) (c : Config) (T : Run Unit) : Prop :=
  (env.RoutingApiEnabled c = false →
    (∀ client force, Event.fetchToken client force ∉ T.trace) ∧
    (∀ fetcher, Event.fetchRoutes fetcher ∉ T.trace) ∧
    (∀ members, Event.newOrdered members ∈ T.trace →
      ∃ router, members = [{ Name := "router", Runner := .router router }])) ∧
  (env.RoutingApiEnabled c = true →
    (∀ client force err, Event.fetchToken client force ∈ T.trace →
      env.FetchToken client force = .error err →
      T.out = .exit 1 ∧ (∀ members, Event.newOrdered members ∉ T.trace) ∧
        Event.invoke ∉ T.trace) ∧
    (∀ fetcher err, Event.fetchRoutes fetcher ∈ T.trace → env.FetchRoutes fetcher = some err →
      T.out = .exit 1 ∧ (∀ members, Event.newOrdered members ∉ T.trace) ∧
        Event.invoke ∉ T.trace) ∧
    (∀ members, Event.newOrdered members ∈ T.trace →
      ∃ router client fetcher,
        Event.fetchToken client false ∈ T.trace ∧
        (∃ token, env.FetchToken client false = .ok token) ∧
        Event.fetchRoutes fetcher ∈ T.trace ∧
        env.FetchRoutes fetcher = none ∧
        members = [{ Name := "router", Runner := .router router },
          { Name := "router-fetcher", Runner := .routeFetcher fetcher }]))

/-! # Theorems -/

/-! ## Laws of `Run` -/

namespace Run
variable {α β : Type}

theorem pure_def (a : α) : (pure a : Run α) = ⟨[], .ret a⟩ := rfl

@[simp] theorem mk_ret_bind (t : List Event) (a : α) (f : α → Run β) :
    ((⟨t, .ret a⟩ : Run α) >>= f) = ⟨t ++ (f a).trace, (f a).out⟩ := rfl

@[simp] theorem mk_exit_bind (t : List Event) (n : Int) (f : α → Run β) :
    ((⟨t, .exit n⟩ : Run α) >>= f) = ⟨t, .exit n⟩ := rfl

@[simp] theorem mk_panic_bind (t : List Event) (e : Err) (f : α → Run β) :
    ((⟨t, .panic e⟩ : Run α) >>= f) = ⟨t, .panic e⟩ := rfl

theorem mem_trace_bind (x : Run α) (f : α → Run β) (e : Event) :
    e ∈ (x >>= f).trace ↔ e ∈ x.trace ∨ ∃ a, x.out = .ret a ∧ e ∈ (f a).trace := by
  obtain ⟨t, o⟩ := x
  cases o <;> simp

theorem out_bind_ret (x : Run α) (f : α → Run β) (b : β) :
    (x >>= f).out = .ret b ↔ ∃ a, x.out = .ret a ∧ (f a).out = .ret b := by
  obtain ⟨t, o⟩ := x
  cases o <;> simp

theorem out_bind_of_ret (x : Run α) (f : α → Run β) (a : α) (h : x.out = .ret a) :
    (x >>= f).out = (f a).out ∧ (x >>= f).trace = x.trace ++ (f a).trace := by
  obtain ⟨t, o⟩ := x
  cases o <;> simp_all

end Run

/-! ## createCrypto -/

theorem createCrypto_eq (env : Env) (logger : Logger) (secret : String) :
    createCrypto env logger secret =
      match env.NewAesGCM (env.NewPbkdf2 (goBytes secret) 16) with
      | .ok crypto =>
        ⟨[.newPbkdf2 (goBytes secret) 16, .newAesGCM (env.NewPbkdf2 (goBytes secret) 16)],
          .ret crypto⟩
      | .error err =>
        ⟨[.newPbkdf2 (goBytes secret) 16, .newAesGCM (env.NewPbkdf2 (goBytes secret) 16),
          .logError "Error creating route service crypto: %s\n" (some err), .osExit 1], .exit 1⟩ := by
  cases h : env.NewAesGCM (env.NewPbkdf2 (goBytes secret) 16) <;>
    simp [createCrypto, emit, osExit, Logger.Error, Run.pure_def, h]

/-- C1 (as stated, refuted): in the sample environment `createCrypto` returns
the cipher of a 16-byte key, which is not `NewAesGCM` of the derivation with
key length 32. -/
theorem C1_counterexample :
    ¬ ∀ (env : Env) (logger : Logger) (s : String) (crypto : AesGCM),
        (createCrypto env logger s).out = .ret crypto →
          env.NewAesGCM (env.NewPbkdf2 (goBytes s) 32) = .ok crypto := by
  intro h
  have h1 := h (sampleEnv 0) sampleLogger "secret" { id := 16 } (by
    rw [createCrypto_eq]; simp [sampleEnv, sampleKdf, sampleAesGCM])
  simp [sampleEnv, sampleKdf, sampleAesGCM] at h1

/-- C1 (amended): for every secret, `createCrypto` calls `secure.NewPbkdf2` on
the bytes of the secret with the integer argument 16, hands exactly that
output to `secure.NewAesGCM`, and returns a cipher exactly when that call
returns it. -/
theorem C1_createCrypto_derives_key (env : Env) (logger : Logger) (s : String) :
    (∀ crypto : AesGCM, (createCrypto env logger s).out = .ret crypto ↔
        env.NewAesGCM (env.NewPbkdf2 (goBytes s) 16) = .ok crypto) ∧
    (createCrypto env logger s).trace.take 2 =
      [.newPbkdf2 (goBytes s) 16, .newAesGCM (env.NewPbkdf2 (goBytes s) 16)] ∧
    (∀ key, Event.newAesGCM key ∈ (createCrypto env logger s).trace →
        key = env.NewPbkdf2 (goBytes s) 16) := by
  rw [createCrypto_eq]
  cases h : env.NewAesGCM (env.NewPbkdf2 (goBytes s) 16) <;> simp

/-! ## buildProxy -/

/-- C7: `buildProxy` hands `proxy.NewProxy` one `ProxyArgs` whose fields are
the same-named configuration options, unchanged, and the arguments of
`buildProxy` itself. -/
theorem C7_buildProxy_passes_config (env : Env) (logger : Logger) (c : Config)
    (registry : Registry) (accessLogger : AccessLogger) (reporter : Reporter)
    (crypto cryptoPrev : Option AesGCM) :
    ∃ args : ProxyArgs,
      buildProxy env logger c registry accessLogger reporter crypto cryptoPrev =
        ⟨[.newProxy args], .ret (env.NewProxy args)⟩ ∧
      args.EndpointTimeout = c.EndpointTimeout ∧
      args.SecureCookies = c.SecureCookies ∧
      args.RouteServiceEnabled = c.RouteServiceEnabled ∧
      args.RouteServiceTimeout = c.RouteServiceTimeout ∧
      args.RouteServiceRecommendHttps = c.RouteServiceRecommendHttps ∧
      args.ExtraHeadersToLog = c.ExtraHeadersToLog ∧
      args.TLSConfig.CipherSuites = c.CipherSuites ∧
      args.TLSConfig.InsecureSkipVerify = c.SSLSkipValidation ∧
      args.Ip = c.Ip ∧
      args.TraceKey = c.TraceKey ∧
      args.Registry = registry ∧
      args.Reporter = reporter ∧
      args.AccessLogger = accessLogger ∧
      args.Crypto = crypto ∧
      args.CryptoPrev = cryptoPrev ∧
      args.Logger = logger :=
  ⟨buildProxyArgs logger c registry accessLogger reporter crypto cryptoPrev, rfl, rfl, rfl, rfl,
    rfl, rfl, rfl, rfl, rfl, rfl, rfl, rfl, rfl, rfl, rfl, rfl, rfl⟩

/-! ## InitLoggerFromConfig -/

/-- C10: `InitLoggerFromConfig` panics exactly when the level is not valid;
otherwise it initialises steno once, with the sinks: a file sink for
`Logging.File` if that is non-empty and else a stdout sink, then a syslog sink
exactly when `Logging.Syslog` is non-empty, then the log counter. -/
theorem C10_InitLoggerFromConfig_sinks (env : Env) (c : Config) (logCounter : LogCounter) :
    ((∃ err, (InitLoggerFromConfig env c logCounter).out = .panic err) ↔
      ∃ err, env.GetLogLevel c.Logging.Level = .error err) ∧
    ∀ l, env.GetLogLevel c.Logging.Level = .ok l →
      ∃ sinks : List Sink,
        InitLoggerFromConfig env c logCounter = ⟨[.stenoInit { Sinks := sinks, Level := l }], .ret ()⟩ ∧
        sinks = [if c.Logging.File ≠ "" then Sink.file c.Logging.File else Sink.stdout] ++
          (if c.Logging.Syslog ≠ "" then [Sink.syslog c.Logging.Syslog] else []) ++
          [Sink.counter logCounter] ∧
        sinks.head? = some (if c.Logging.File ≠ "" then Sink.file c.Logging.File else Sink.stdout) ∧
        ¬ ((∃ path, Sink.file path ∈ sinks) ∧ Sink.stdout ∈ sinks) ∧
        ((∃ name, Sink.syslog name ∈ sinks) ↔ c.Logging.Syslog ≠ "") ∧
        (c.Logging.Syslog ≠ "" → sinks[1]? = some (Sink.syslog c.Logging.Syslog)) ∧
        sinks.getLast? = some (Sink.counter logCounter) ∧
        (sinks.length = 2 ∨ sinks.length = 3) ∧
        sinks.length ≤ 3 := by
  constructor
  · cases h : env.GetLogLevel c.Logging.Level <;> simp [InitLoggerFromConfig, h, goPanic, emit]
  · intro l h
    refine ⟨loggerSinks c logCounter, ?_, ?_⟩
    · simp [InitLoggerFromConfig, h, emit]
    · by_cases hf : c.Logging.File = "" <;> by_cases hs : c.Logging.Syslog = "" <;>
        simp [loggerSinks, hf, hs]

/-! ## newUaaClient -/

theorem newUaaClient_eq (env : Env) (logger : Logger) (c : Config) :
    newUaaClient env logger c =
      if c.RoutingApi.AuthDisabled = true then
        ⟨[.logInfo "using-noop-token-fetcher"], .ret env.NewNoOpUaaClient⟩
      else if c.OAuth.Port = -1 then
        ⟨[.logFatal "tls-not-enabled" "GoRouter requires TLS enabled to get OAuth token"],
          .panic "GoRouter requires TLS enabled to get OAuth token"⟩
      else
        match env.NewClient logger (uaaConfigOf c) with
        | .ok uaaClient => ⟨[.newClient (uaaConfigOf c)], .ret uaaClient⟩
        | .error err =>
          ⟨[.newClient (uaaConfigOf c), .logError "Error creating token fetcher: %s\n" (some err),
            .osExit 1], .exit 1⟩ := by
  by_cases h1 : c.RoutingApi.AuthDisabled = true
  · simp [newUaaClient, h1, Logger.Info, emit, Run.pure_def]
  · by_cases h2 : c.OAuth.Port = -1
    · simp [newUaaClient, h1, h2, Logger.Fatal]
    · cases h3 : env.NewClient logger (uaaConfigOf c) <;>
        simp [newUaaClient, h1, h2, h3, Logger.Error, emit, osExit, Run.pure_def]

/-- C6: `newUaaClient` ends without returning a client exactly when auth is
not disabled and the OAuth port is -1 or `uaa_client.NewClient` fails; with
auth disabled it returns the no-op client and never calls `NewClient`; with
auth enabled and a port other than -1 it calls `NewClient` once, with the
endpoint `https://<TokenEndpoint>:<Port>` and the other fields copied. -/
theorem C6_newUaaClient_aborts_iff (env : Env) (logger : Logger) (c : Config) :
    ((∀ client, (newUaaClient env logger c).out ≠ .ret client) ↔
      (c.RoutingApi.AuthDisabled = false ∧
        (c.OAuth.Port = -1 ∨ ∃ err, env.NewClient logger (uaaConfigOf c) = .error err))) ∧
    (c.RoutingApi.AuthDisabled = true →
      (newUaaClient env logger c).out = .ret env.NewNoOpUaaClient ∧
      ∀ cfg, Event.newClient cfg ∉ (newUaaClient env logger c).trace) ∧
    (c.RoutingApi.AuthDisabled = false → c.OAuth.Port ≠ -1 →
      ∃ cfg : UaaConfig,
        (newUaaClient env logger c).trace.head? = some (.newClient cfg) ∧
        (∀ client, (newUaaClient env logger c).out = .ret client ↔
          env.NewClient logger cfg = .ok client) ∧
        ((∃ err, env.NewClient logger cfg = .error err) → (newUaaClient env logger c).out = .exit 1) ∧
        cfg.UaaEndpoint = "https://" ++ c.OAuth.TokenEndpoint ++ ":" ++ toString c.OAuth.Port ∧
        cfg.SkipVerification = c.OAuth.SkipOAuthTLSVerification ∧
        cfg.ClientName = c.OAuth.ClientName ∧
        cfg.ClientSecret = c.OAuth.ClientSecret ∧
        cfg.MaxNumberOfRetries = c.TokenFetcherMaxRetries ∧
        cfg.RetryInterval = c.TokenFetcherRetryInterval ∧
        cfg.ExpirationBufferInSec = c.TokenFetcherExpirationBufferTimeInSeconds) := by
  rw [newUaaClient_eq]
  refine ⟨?_, ?_, ?_⟩
  · by_cases h1 : c.RoutingApi.AuthDisabled = true
    · simp [h1]
    · by_cases h2 : c.OAuth.Port = -1
      · simp [h1, h2]
      · cases h3 : env.NewClient logger (uaaConfigOf c) <;> simp [h1, h2, h3]
  · intro h1
    simp [h1]
  · intro h1 h2
    refine ⟨uaaConfigOf c, ?_, ?_, ?_, rfl, rfl, rfl, rfl, rfl, rfl, rfl⟩ <;>
      cases h3 : env.NewClient logger (uaaConfigOf c) <;> simp [h1, h2, h3]

/-! ## connectToNatsServer -/

/-- The three possible runs of `connectToNatsServer`, by the outcomes of the
calls of `yagnats.Connect`. -/
theorem connectToNatsServer_eq (env : Env) (logger : Logger) (c : Config) :
    connectToNatsServer env logger c =
      match env.Connect 0 (env.NatsServers c) with
      | .ok conn =>
        ⟨[.connect 0 (env.NatsServers c), .addClosedCB conn],
          .ret { conn := conn, closedCBs := [natsClosedCB logger none] }⟩
      | .error _ =>
        match env.Connect 1 (env.NatsServers c) with
        | .ok conn =>
          ⟨[.connect 0 (env.NatsServers c), .sleep 100, .connect 1 (env.NatsServers c),
            .addClosedCB conn],
            .ret { conn := conn, closedCBs := [natsClosedCB logger none] }⟩
        | .error _ =>
          match env.Connect 2 (env.NatsServers c) with
          | .ok conn =>
            ⟨[.connect 0 (env.NatsServers c), .sleep 100, .connect 1 (env.NatsServers c),
              .sleep 100, .connect 2 (env.NatsServers c), .addClosedCB conn],
              .ret { conn := conn, closedCBs := [natsClosedCB logger none] }⟩
          | .error err =>
            ⟨[.connect 0 (env.NatsServers c), .sleep 100, .connect 1 (env.NatsServers c),
              .sleep 100, .connect 2 (env.NatsServers c), .sleep 100,
              .logError "Error connecting to NATS: %s\n" (some err), .osExit 1], .exit 1⟩ := by
  cases h0 : env.Connect 0 (env.NatsServers c) with
  | ok conn =>
    simp [connectToNatsServer, connectLoop, h0, emit, Run.pure_def, NATSClient.AddClosedCB]
  | error e0 =>
    cases h1 : env.Connect 1 (env.NatsServers c) with
    | ok conn =>
      simp [connectToNatsServer, connectLoop, h0, h1, emit, Run.pure_def, NATSClient.AddClosedCB]
    | error e1 =>
      cases h2 : env.Connect 2 (env.NatsServers c) with
      | ok conn =>
        simp [connectToNatsServer, connectLoop, h0, h1, h2, emit, Run.pure_def,
          NATSClient.AddClosedCB]
      | error e2 =>
        simp [connectToNatsServer, connectLoop, h0, h1, h2, emit, Run.pure_def, osExit,
          Logger.Error]

/-- C4 (as stated, refuted): in the sample environment the callback installed
on the client ends the process with exit status 1. -/
theorem C4_counterexample :
    ∃ client, (connectToNatsServer (sampleEnv 0) sampleLogger sampleConfig).out = .ret client ∧
      ∃ cb ∈ client.closedCBs, (cb { id := 7 }).out = .exit 1 := by
  rw [connectToNatsServer_eq]
  exact ⟨_, rfl, natsClosedCB sampleLogger none, List.mem_singleton.mpr rfl, rfl⟩

/-- C4 (amended): whenever `connectToNatsServer` returns a client, exactly one
closed-connection callback is installed on it, and for every connection
passed to it that callback logs one error and ends the process with exit
status 1. -/
theorem C4_closed_callback_exits (env : Env) (logger : Logger) (c : Config) (client : NATSClient)
    (h : (connectToNatsServer env logger c).out = .ret client) :
    ∃ cb, client.closedCBs = [cb] ∧
      ∀ conn : NatsConn,
        cb conn = ⟨[.logError "Close on NATS client. nats.Conn: " none, .osExit 1], .exit 1⟩ := by
  rw [connectToNatsServer_eq] at h
  refine ⟨natsClosedCB logger none, ?_, fun _ => rfl⟩
  cases h0 : env.Connect 0 (env.NatsServers c) with
  | ok conn => simp [h0] at h; rw [← h]
  | error e0 =>
    cases h1 : env.Connect 1 (env.NatsServers c) with
    | ok conn => simp [h0, h1] at h; rw [← h]
    | error e1 =>
      cases h2 : env.Connect 2 (env.NatsServers c) with
      | ok conn => simp [h0, h1, h2] at h; rw [← h]
      | error e2 => simp [h0, h1, h2] at h

/-- C4 (amended) at the sample client: its one callback ends the process. -/
theorem C4_closed_callback_exits_witness :
    ∃ cb, ({ conn := { id := 0 }, closedCBs := [natsClosedCB sampleLogger none] } : NATSClient).closedCBs
        = [cb] ∧
      ∀ conn : NatsConn,
        cb conn = ⟨[.logError "Close on NATS client. nats.Conn: " none, .osExit 1], .exit 1⟩ :=
  C4_closed_callback_exits (sampleEnv 0) sampleLogger sampleConfig
    { conn := { id := 0 }, closedCBs := [natsClosedCB sampleLogger none] }
    (by rw [connectToNatsServer_eq]; rfl)

/-- C8: `connectToNatsServer` always ends, after one, two or three calls of
`yagnats.Connect`; it returns the connection of the first successful call
and makes no call after it; it ends the process with exit status 1 exactly
when the first three calls all fail, and then installs no callback. -/
theorem C8_connect_at_most_three (env : Env) (logger : Logger) (c : Config) :
    (1 ≤ connectCalls (connectToNatsServer env logger c).trace ∧
      connectCalls (connectToNatsServer env logger c).trace ≤ 3) ∧
    ((∃ client, (connectToNatsServer env logger c).out = .ret client) ∨
      (connectToNatsServer env logger c).out = .exit 1) ∧
    (∀ k conn, k < 3 → env.Connect k (env.NatsServers c) = .ok conn →
      (∀ j, j < k → ∃ err, env.Connect j (env.NatsServers c) = .error err) →
      ∃ client, (connectToNatsServer env logger c).out = .ret client ∧ client.conn = conn ∧
        connectCalls (connectToNatsServer env logger c).trace = k + 1 ∧
        Event.addClosedCB conn ∈ (connectToNatsServer env logger c).trace) ∧
    ((connectToNatsServer env logger c).out = .exit 1 ↔
      ∀ k, k < 3 → ∃ err, env.Connect k (env.NatsServers c) = .error err) ∧
    ((connectToNatsServer env logger c).out = .exit 1 →
      connectCalls (connectToNatsServer env logger c).trace = 3 ∧
      ∀ conn, Event.addClosedCB conn ∉ (connectToNatsServer env logger c).trace) := by
  have hk : ∀ (p : Nat → Prop), (∀ k, k < 3 → p k) ↔ (p 0 ∧ p 1 ∧ p 2) := by
    intro p
    constructor
    · intro h
      exact ⟨h 0 (by omega), h 1 (by omega), h 2 (by omega)⟩
    · rintro ⟨h0, h1, h2⟩ k hk'
      interval_cases k <;> assumption
  rw [connectToNatsServer_eq]
  cases h0 : env.Connect 0 (env.NatsServers c) with
  | ok conn0 =>
    refine ⟨by simp [connectCalls], by simp, ?_, by simp [hk, h0], by simp⟩
    intro k conn hk3 hok hbefore
    interval_cases k
    · simp_all [connectCalls]
    · obtain ⟨e, he⟩ := hbefore 0 (by omega); simp_all
    · obtain ⟨e, he⟩ := hbefore 0 (by omega); simp_all
  | error e0 =>
    cases h1 : env.Connect 1 (env.NatsServers c) with
    | ok conn1 =>
      refine ⟨by simp [connectCalls], by simp, ?_, by simp [hk, h0, h1], by simp⟩
      intro k conn hk3 hok hbefore
      interval_cases k
      · simp_all
      · simp_all [connectCalls]
      · obtain ⟨e, he⟩ := hbefore 1 (by omega); simp_all
    | error e1 =>
      cases h2 : env.Connect 2 (env.NatsServers c) with
      | ok conn2 =>
        refine ⟨by simp [connectCalls], by simp, ?_, by simp [hk, h0, h1, h2], by simp⟩
        intro k conn hk3 hok hbefore
        interval_cases k
        · simp_all
        · simp_all
        · simp_all [connectCalls]
      | error e2 =>
        refine ⟨by simp [connectCalls], by simp, ?_, by simp [hk, h0, h1, h2],
          by simp [connectCalls]⟩
        intro k conn hk3 hok hbefore
        interval_cases k <;> simp_all

/-! ## FakeAccessLogger -/

namespace Fakes
variable {R W : Type}

theorem step_run_args (s : FakeAccessLogger R W × W) (call : Call R W) :
    (step s call).1.runArgsForCall.length =
      s.1.runArgsForCall.length + runCallsMade [call] := by
  cases call <;> simp [step, runCallsMade, FakeAccessLogger.Run, FakeAccessLogger.Stop,
    FakeAccessLogger.Log] <;> split <;> simp

theorem step_stop_args (s : FakeAccessLogger R W × W) (call : Call R W) :
    (step s call).1.stopArgsForCall.length =
      s.1.stopArgsForCall.length + stopCallsMade [call] := by
  cases call <;> simp [step, stopCallsMade, FakeAccessLogger.Run, FakeAccessLogger.Stop,
    FakeAccessLogger.Log] <;> split <;> simp

theorem step_log_args (s : FakeAccessLogger R W × W) (call : Call R W) :
    (step s call).1.logArgsForCall = s.1.logArgsForCall ++ recordsLogged [call] := by
  cases call <;> simp [step, recordsLogged, FakeAccessLogger.Run, FakeAccessLogger.Stop,
    FakeAccessLogger.Log] <;> split <;> simp

theorem runCallsMade_cons (call : Call R W) (calls : List (Call R W)) :
    runCallsMade (call :: calls) = runCallsMade [call] + runCallsMade calls := by
  cases call <;> simp [runCallsMade]
  omega

theorem stopCallsMade_cons (call : Call R W) (calls : List (Call R W)) :
    stopCallsMade (call :: calls) = stopCallsMade [call] + stopCallsMade calls := by
  cases call <;> simp [stopCallsMade]
  omega

theorem recordsLogged_cons (call : Call R W) (calls : List (Call R W)) :
    recordsLogged (call :: calls) = recordsLogged [call] ++ recordsLogged calls := by
  cases call <;> simp [recordsLogged]

theorem logCallsMade_eq (calls : List (Call R W)) :
    logCallsMade calls = (recordsLogged calls).length := by
  induction calls with
  | nil => rfl
  | cons call calls ih => cases call <;> simp [logCallsMade, recordsLogged, ih]

theorem runCalls_args (calls : List (Call R W)) (s : FakeAccessLogger R W × W) :
    (runCalls s calls).1.runArgsForCall.length = s.1.runArgsForCall.length + runCallsMade calls ∧
    (runCalls s calls).1.stopArgsForCall.length =
      s.1.stopArgsForCall.length + stopCallsMade calls ∧
    (runCalls s calls).1.logArgsForCall = s.1.logArgsForCall ++ recordsLogged calls := by
  induction calls generalizing s with
  | nil => simp [runCalls, runCallsMade, stopCallsMade, recordsLogged]
  | cons call calls ih =>
    have h := ih (step s call)
    simp only [runCalls, List.foldl_cons] at h ⊢
    rw [h.1, h.2.1, h.2.2, step_run_args, step_stop_args, step_log_args,
      runCallsMade_cons call calls, stopCallsMade_cons call calls, recordsLogged_cons call calls]
    refine ⟨by omega, by omega, by simp⟩

/-- C9: from the zero value, after any sequence of calls and stub
assignments, each counter is the number of calls of its method, one call
leaves the other two counters alone, and `LogArgsForCall(i)` for
`0 <= i < LogCallCount` is the record of the `(i+1)`-th `Log` call. -/
theorem C9_fake_records_calls (calls : List (Call R W)) (w : W) :
    ((runCalls (FakeAccessLogger.zero R W, w) calls).1.RunCallCount = runCallsMade calls ∧
      (runCalls (FakeAccessLogger.zero R W, w) calls).1.StopCallCount = stopCallsMade calls ∧
      (runCalls (FakeAccessLogger.zero R W, w) calls).1.LogCallCount = logCallsMade calls) ∧
    (∀ i : Int, 0 ≤ i → i < (runCalls (FakeAccessLogger.zero R W, w) calls).1.LogCallCount →
      ∃ record, (recordsLogged calls)[i.toNat]? = some record ∧
        (runCalls (FakeAccessLogger.zero R W, w) calls).1.LogArgsForCall i = some record) ∧
    (∀ (fake : FakeAccessLogger R W) (v : W) (record : R),
      ((fake.Run v).1.RunCallCount = fake.RunCallCount + 1 ∧
        (fake.Run v).1.StopCallCount = fake.StopCallCount ∧
        (fake.Run v).1.LogCallCount = fake.LogCallCount) ∧
      ((fake.Stop v).1.StopCallCount = fake.StopCallCount + 1 ∧
        (fake.Stop v).1.RunCallCount = fake.RunCallCount ∧
        (fake.Stop v).1.LogCallCount = fake.LogCallCount) ∧
      ((fake.Log record v).1.LogCallCount = fake.LogCallCount + 1 ∧
        (fake.Log record v).1.RunCallCount = fake.RunCallCount ∧
        (fake.Log record v).1.StopCallCount = fake.StopCallCount)) := by
  have h := runCalls_args calls (FakeAccessLogger.zero R W, w)
  simp only [FakeAccessLogger.zero, List.length_nil, Nat.zero_add, List.nil_append] at h
  obtain ⟨h1, h2, h3⟩ := h
  refine ⟨⟨?_, ?_, ?_⟩, ?_, ?_⟩
  · simp [FakeAccessLogger.RunCallCount, FakeAccessLogger.zero, h1]
  · simp [FakeAccessLogger.StopCallCount, FakeAccessLogger.zero, h2]
  · simp [FakeAccessLogger.LogCallCount, FakeAccessLogger.zero, h3, logCallsMade_eq]
  · intro i h0 hlt
    simp only [FakeAccessLogger.LogCallCount, FakeAccessLogger.LogArgsForCall,
      FakeAccessLogger.zero] at hlt ⊢
    rw [h3] at hlt ⊢
    have hi : i.toNat < (recordsLogged calls).length := by omega
    refine ⟨(recordsLogged calls)[i.toNat], ?_, ?_⟩
    · simp [hi]
    · have : ¬ i < 0 := by omega
      simp [this, hi]
  · intro fake v record
    refine ⟨⟨?_, ?_, ?_⟩, ⟨?_, ?_, ?_⟩, ⟨?_, ?_, ?_⟩⟩ <;>
      simp only [FakeAccessLogger.Run, FakeAccessLogger.Stop, FakeAccessLogger.Log,
        FakeAccessLogger.RunCallCount, FakeAccessLogger.StopCallCount,
        FakeAccessLogger.LogCallCount] <;> split <;> simp

/-- C9 at a sample sequence of five operations: the second logged record is returned for index 1. -/
theorem C9_fake_records_calls_witness :
    ∃ record, (recordsLogged ([.log 7, .run, .setLogStub (some fun _ n => n + 1), .log 9, .stop] :
        List (Call Nat Nat)))[(1 : Int).toNat]? = some record ∧
      (runCalls (FakeAccessLogger.zero Nat Nat, 0)
        [.log 7, .run, .setLogStub (some fun _ n => n + 1), .log 9, .stop]).1.LogArgsForCall 1
        = some record :=
  (C9_fake_records_calls [.log 7, .run, .setLogStub (some fun _ n => n + 1), .log 9, .stop] 0).2.1
    1 (by decide) (by decide)

end Fakes

namespace Run
variable {α β : Type}

theorem All_bind {p : Event → Prop} {x : Run α} {f : α → Run β}
    (hx : x.All p) (hf : ∀ a, (f a).All p) : (x >>= f).All p := by
  intro e he
  rcases (mem_trace_bind x f e).mp he with h | ⟨a, _, h⟩
  · exact hx e h
  · exact hf a e h

theorem All_pure {p : Event → Prop} (a : α) : (pure a : Run α).All p := by
  intro e he
  exact absurd he (List.not_mem_nil e)

theorem All_emit {p : Event → Prop} {e : Event} (h : p e) : (emit e).All p := by
  intro e1 he
  simp [emit] at he
  exact he ▸ h

theorem All_osExit {p : Event → Prop} {n : Int} (h : p (.osExit n)) :
    (osExit n : Run α).All p := by
  intro e1 he
  simp [osExit] at he
  exact he ▸ h

end Run

theorem connectToNatsServer_events (env : Env) (logger : Logger) (c : Config) :
    (connectToNatsServer env logger c).All
      (fun e => e.isCryptoOrProxy = false ∧ e.isFetcherOrGroup = false) := by
  rw [connectToNatsServer_eq]
  unfold Run.All
  split <;> [skip; split <;> [skip; split]] <;>
    simp [Event.isCryptoOrProxy, Event.isFetcherOrGroup]

theorem InitLoggerFromConfig_events (env : Env) (c : Config) (logCounter : LogCounter) :
    (InitLoggerFromConfig env c logCounter).All
      (fun e => e.isCryptoOrProxy = false ∧ e.isFetcherOrGroup = false) := by
  unfold Run.All InitLoggerFromConfig
  split <;> simp [goPanic, emit, Event.isCryptoOrProxy, Event.isFetcherOrGroup]

theorem Logger.Error_events {p : Event → Prop} (logger : Logger) (msg : String) (err : Option Err)
    (h : p (.logError msg err)) : (logger.Error msg err).All p :=
  Run.All_emit h

theorem Logger.Info_events {p : Event → Prop} (logger : Logger) (msg : String)
    (h : p (.logInfo msg)) : (logger.Info msg).All p :=
  Run.All_emit h

theorem Logger.Fatal_events {α : Type} {p : Event → Prop} (logger : Logger) (msg : String)
    (err : Err) (h : p (.logFatal msg err)) : (logger.Fatal msg err : Run α).All p := by
  intro e he
  simp [Logger.Fatal] at he
  exact he ▸ h

theorem mainStartUp_events (env : Env) (configFile : String) :
    (mainStartUp env configFile).All
      (fun e => e.isCryptoOrProxy = false ∧ e.isFetcherOrGroup = false) := by
  unfold mainStartUp
  simp only []
  split_ifs <;>
  repeat' first
    | with_reducible exact connectToNatsServer_events _ _ _
    | with_reducible exact InitLoggerFromConfig_events _ _ _
    | (with_reducible apply Logger.Error_events) <;> exact ⟨rfl, rfl⟩
    | (with_reducible apply Logger.Info_events) <;> exact ⟨rfl, rfl⟩
    | (with_reducible apply Logger.Fatal_events) <;> exact ⟨rfl, rfl⟩
    | with_reducible exact Run.All_pure _
    | (with_reducible apply Run.All_emit) <;> exact ⟨rfl, rfl⟩
    | (with_reducible apply Run.All_osExit) <;> exact ⟨rfl, rfl⟩
    | with_reducible apply Run.All_bind
    | split
    | with_reducible intro _

namespace Run
variable {α β : Type}

theorem Ret_bind {q : β → Prop} {x : Run α} {f : α → Run β}
    (hf : ∀ a, (f a).Ret q) : (x >>= f).Ret q := by
  intro b hb
  obtain ⟨a, _, h⟩ := (out_bind_ret x f b).mp hb
  exact hf a b h

theorem Ret_pure {q : α → Prop} {a : α} (h : q a) : (pure a : Run α).Ret q := by
  intro b hb
  simp only [pure_def, Outcome.ret.injEq] at hb
  exact hb ▸ h

theorem bind_cases (x : Run α) (f : α → Run β) :
    (∃ a, x.out = .ret a ∧ (x >>= f).trace = x.trace ++ (f a).trace ∧ (x >>= f).out = (f a).out) ∨
    ((x >>= f).trace = x.trace ∧
      ((∃ n, x.out = .exit n ∧ (x >>= f).out = .exit n) ∨
        (∃ err, x.out = .panic err ∧ (x >>= f).out = .panic err))) := by
  obtain ⟨t, o⟩ := x
  cases o <;> simp

end Run

theorem mainStartUp_ret (env : Env) (configFile : String) :
    (mainStartUp env configFile).Ret
      (fun s => s.1 = mainConfig env configFile ∧ s.2.1 = env.NewLogCounter ∧
        s.2.2.1 = { component := "router.main" }) := by
  unfold mainStartUp mainConfig
  simp only []
  split_ifs <;>
  repeat' first
    | (with_reducible apply Run.Ret_pure) <;> exact ⟨rfl, rfl, rfl⟩
    | with_reducible apply Run.Ret_bind
    | split
    | with_reducible intro _

theorem main_eq (env : Env) (configFile : String) :
    main env configFile = mainStartUp env configFile >>= mainAfterStartUp env :=
  rfl

theorem mainAfterProxy_eq (env : Env) (logger : Logger) (c : Config) (natsClient : NATSClient)
    (registry : Registry) (varz : Varz) (logCounter : LogCounter) (proxy : Proxy) :
    mainAfterProxy env logger c natsClient registry varz logCounter proxy =
      mainNewRouter env logger c proxy natsClient registry varz logCounter >>= fun router =>
        mainAfterRouter env logger c registry router :=
  rfl

theorem mainRouteServiceCrypto_eq (env : Env) (logger : Logger) (c : Config) :
    mainRouteServiceCrypto env logger c =
      if c.RouteServiceEnabled = true then
        createCrypto env logger c.RouteServiceSecret >>= fun crypto =>
          if c.RouteServiceSecretPrev ≠ "" then
            createCrypto env logger c.RouteServiceSecretPrev >>= fun cryptoPrev =>
              pure (some crypto, some cryptoPrev)
          else pure (some crypto, none)
      else pure (none, none) := by
  unfold mainRouteServiceCrypto
  by_cases h1 : c.RouteServiceEnabled = true
  · by_cases h2 : c.RouteServiceSecretPrev = ""
    · simp only [h1, h2, if_true, ne_eq, not_true_eq_false, if_false]
      rfl
    · simp only [h1, h2, if_true, ne_eq, not_false_eq_true]
      rfl
  · simp only [h1, if_false]
    rfl

theorem createCrypto_events (env : Env) (logger : Logger) (secret : String) :
    (createCrypto env logger secret).All (fun e => e.isFetcherOrGroup = false) := by
  rw [createCrypto_eq]
  unfold Run.All
  split <;> simp [Event.isFetcherOrGroup]

theorem mainRouteServiceCrypto_events (env : Env) (logger : Logger) (c : Config) :
    (mainRouteServiceCrypto env logger c).All (fun e => e.isFetcherOrGroup = false) := by
  rw [mainRouteServiceCrypto_eq]
  split_ifs <;>
  repeat' first
    | with_reducible exact createCrypto_events _ _ _
    | with_reducible exact Run.All_pure _
    | with_reducible apply Run.All_bind
    | split
    | with_reducible intro _

theorem mainNewRouter_events (env : Env) (logger : Logger) (c : Config) (proxy : Proxy)
    (natsClient : NATSClient) (registry : Registry) (varz : Varz) (logCounter : LogCounter) :
    (mainNewRouter env logger c proxy natsClient registry varz logCounter).All
      (fun e => e.isCryptoOrProxy = false ∧ e.isFetcherOrGroup = false) := by
  unfold Run.All mainNewRouter
  split <;> simp [Logger.Error, emit, osExit, Run.pure_def, Event.isCryptoOrProxy,
    Event.isFetcherOrGroup]

theorem newUaaClient_events (env : Env) (logger : Logger) (c : Config) :
    (newUaaClient env logger c).All
      (fun e => e.isCryptoOrProxy = false ∧ e.isFetcherOrGroup = false) := by
  rw [newUaaClient_eq]
  unfold Run.All
  split_ifs <;> [skip; skip; split] <;> simp [Event.isCryptoOrProxy, Event.isFetcherOrGroup]

theorem mainAfterRouter_events (env : Env) (logger : Logger) (c : Config) (registry : Registry)
    (router : Router) :
    (mainAfterRouter env logger c registry router).All (fun e => e.isCryptoOrProxy = false) := by
  have hu := newUaaClient_events env logger c
  have hu1 : (newUaaClient env logger c).All (fun e => e.isCryptoOrProxy = false) :=
    fun e he => (hu e he).1
  unfold mainAfterRouter mainMembers mainRunGroup setupRouteFetcher
  simp only []
  split_ifs <;>
  repeat' first
    | with_reducible exact hu1
    | (with_reducible apply Logger.Error_events) <;> exact rfl
    | (with_reducible apply Logger.Info_events) <;> exact rfl
    | with_reducible exact Run.All_pure _
    | (with_reducible apply Run.All_emit) <;> exact rfl
    | (with_reducible apply Run.All_osExit) <;> exact rfl
    | with_reducible apply Run.All_bind
    | split
    | with_reducible intro _

theorem mainAfterProxy_events (env : Env) (logger : Logger) (c : Config) (natsClient : NATSClient)
    (registry : Registry) (varz : Varz) (logCounter : LogCounter) (proxy : Proxy) :
    (mainAfterProxy env logger c natsClient registry varz logCounter proxy).All
      (fun e => e.isCryptoOrProxy = false) := by
  rw [mainAfterProxy_eq]
  apply Run.All_bind
  · exact fun e he => (mainNewRouter_events _ _ _ _ _ _ _ _ e he).1
  · intro router
    exact mainAfterRouter_events _ _ _ _ _

/-- The run of `main` from line 87 on, by the outcomes of `secure.NewAesGCM`. -/
theorem mainAfterStartUp_eq (env : Env) (c : Config) (logCounter : LogCounter) (logger : Logger)
    (natsClient : NATSClient) (registry : Registry) (varz : Varz) (reporter : Reporter)
    (accessLogger : AccessLogger) :
    mainAfterStartUp env
        (c, logCounter, logger, natsClient, registry, varz, reporter, accessLogger) =
      if c.RouteServiceEnabled = true then
        match env.NewAesGCM (env.NewPbkdf2 (goBytes c.RouteServiceSecret) 16) with
        | .error err =>
          ⟨[.newPbkdf2 (goBytes c.RouteServiceSecret) 16,
            .newAesGCM (env.NewPbkdf2 (goBytes c.RouteServiceSecret) 16),
            .logError "Error creating route service crypto: %s\n" (some err), .osExit 1], .exit 1⟩
        | .ok k =>
          if c.RouteServiceSecretPrev ≠ "" then
            match env.NewAesGCM (env.NewPbkdf2 (goBytes c.RouteServiceSecretPrev) 16) with
            | .error err =>
              ⟨[.newPbkdf2 (goBytes c.RouteServiceSecret) 16,
                .newAesGCM (env.NewPbkdf2 (goBytes c.RouteServiceSecret) 16),
                .newPbkdf2 (goBytes c.RouteServiceSecretPrev) 16,
                .newAesGCM (env.NewPbkdf2 (goBytes c.RouteServiceSecretPrev) 16),
                .logError "Error creating route service crypto: %s\n" (some err), .osExit 1],
                .exit 1⟩
            | .ok kPrev =>
              ⟨[.newPbkdf2 (goBytes c.RouteServiceSecret) 16,
                .newAesGCM (env.NewPbkdf2 (goBytes c.RouteServiceSecret) 16),
                .newPbkdf2 (goBytes c.RouteServiceSecretPrev) 16,
                .newAesGCM (env.NewPbkdf2 (goBytes c.RouteServiceSecretPrev) 16),
                .newProxy (buildProxyArgs logger c registry accessLogger reporter (some k)
                  (some kPrev))] ++
                (mainAfterProxy env logger c natsClient registry varz logCounter
                  (env.NewProxy (buildProxyArgs logger c registry accessLogger reporter (some k)
                    (some kPrev)))).trace,
                (mainAfterProxy env logger c natsClient registry varz logCounter
                  (env.NewProxy (buildProxyArgs logger c registry accessLogger reporter (some k)
                    (some kPrev)))).out⟩
          else
            ⟨[.newPbkdf2 (goBytes c.RouteServiceSecret) 16,
              .newAesGCM (env.NewPbkdf2 (goBytes c.RouteServiceSecret) 16),
              .newProxy (buildProxyArgs logger c registry accessLogger reporter (some k) none)] ++
              (mainAfterProxy env logger c natsClient registry varz logCounter
                (env.NewProxy (buildProxyArgs logger c registry accessLogger reporter (some k)
                  none))).trace,
              (mainAfterProxy env logger c natsClient registry varz logCounter
                (env.NewProxy (buildProxyArgs logger c registry accessLogger reporter (some k)
                  none))).out⟩
      else
        ⟨[.newProxy (buildProxyArgs logger c registry accessLogger reporter none none)] ++
          (mainAfterProxy env logger c natsClient registry varz logCounter
            (env.NewProxy (buildProxyArgs logger c registry accessLogger reporter none none))).trace,
          (mainAfterProxy env logger c natsClient registry varz logCounter
            (env.NewProxy (buildProxyArgs logger c registry accessLogger reporter none none))).out⟩ := by
  simp only [mainAfterStartUp, mainRouteServiceCrypto_eq, createCrypto_eq]
  by_cases h1 : c.RouteServiceEnabled = true
  · cases h2 : env.NewAesGCM (env.NewPbkdf2 (goBytes c.RouteServiceSecret) 16) with
    | error e => simp [h1, h2]
    | ok k =>
      by_cases h3 : c.RouteServiceSecretPrev = ""
      · simp [h1, h2, h3, Run.pure_def, buildProxy, emit]
      · cases h4 : env.NewAesGCM (env.NewPbkdf2 (goBytes c.RouteServiceSecretPrev) 16) with
        | error e => simp [h1, h2, h3, h4]
        | ok kPrev => simp [h1, h2, h3, h4, Run.pure_def, buildProxy, emit]
  · simp [h1, Run.pure_def, buildProxy, emit]

theorem mainStartUp_no_crypto (env : Env) (configFile : String) :
    (∀ key, Event.newAesGCM key ∉ (mainStartUp env configFile).trace) ∧
    (∀ input n, Event.newPbkdf2 input n ∉ (mainStartUp env configFile).trace) ∧
    (∀ args, Event.newProxy args ∉ (mainStartUp env configFile).trace) := by
  have hP := mainStartUp_events env configFile
  refine ⟨fun key h => ?_, fun input n h => ?_, fun args h => ?_⟩ <;>
    exact absurd (hP _ h).1 (by simp [Event.isCryptoOrProxy])

theorem mainAfterProxy_no_crypto (env : Env) (logger : Logger) (c : Config)
    (natsClient : NATSClient) (registry : Registry) (varz : Varz) (logCounter : LogCounter)
    (proxy : Proxy) :
    (∀ key, Event.newAesGCM key ∉
      (mainAfterProxy env logger c natsClient registry varz logCounter proxy).trace) ∧
    (∀ input n, Event.newPbkdf2 input n ∉
      (mainAfterProxy env logger c natsClient registry varz logCounter proxy).trace) ∧
    (∀ args, Event.newProxy args ∉
      (mainAfterProxy env logger c natsClient registry varz logCounter proxy).trace) := by
  have hA := mainAfterProxy_events env logger c natsClient registry varz logCounter proxy
  refine ⟨fun key h => ?_, fun input n h => ?_, fun args h => ?_⟩ <;>
    exact absurd (hA _ h) (by simp [Event.isCryptoOrProxy])

/-- C2: `createCrypto` returns a cipher exactly when `secure.NewAesGCM`
succeeds on the derived key and otherwise ends the process with exit status
1; in `main`, a failing `NewAesGCM` call ends the process with exit status 1
and `proxy.NewProxy` is never called. -/
theorem C2_crypto_failure_aborts (env : Env) (logger : Logger) (secret : String)
    (configFile : String) :
    ((∃ crypto, (createCrypto env logger secret).out = .ret crypto) ↔
      ∃ crypto, env.NewAesGCM (env.NewPbkdf2 (goBytes secret) 16) = .ok crypto) ∧
    (∀ err, env.NewAesGCM (env.NewPbkdf2 (goBytes secret) 16) = .error err →
      (createCrypto env logger secret).out = .exit 1 ∧
      (createCrypto env logger secret).trace.getLast? = some (.osExit 1)) ∧
    (∀ key err, Event.newAesGCM key ∈ (main env configFile).trace →
      env.NewAesGCM key = .error err →
      (main env configFile).out = .exit 1 ∧
      ∀ args, Event.newProxy args ∉ (main env configFile).trace) := by
  refine ⟨?_, ?_, ?_⟩
  · rw [createCrypto_eq]
    cases h : env.NewAesGCM (env.NewPbkdf2 (goBytes secret) 16) <;> simp
  · intro err h
    rw [createCrypto_eq]
    simp [h]
  · intro key err hmem herr
    obtain ⟨hP1, -, hP3⟩ := mainStartUp_no_crypto env configFile
    rw [main_eq] at hmem ⊢
    rcases Run.bind_cases (mainStartUp env configFile) (mainAfterStartUp env) with
      ⟨s, -, ht, ho⟩ | ⟨ht, -⟩
    · obtain ⟨c, lc, lg, nc, reg, vz, rep, al⟩ := s
      have hA := fun k kp => mainAfterProxy_no_crypto env lg c nc reg vz lc
        (env.NewProxy (buildProxyArgs lg c reg al rep k kp))
      rw [ht] at hmem ⊢
      rw [ho]
      rw [mainAfterStartUp_eq] at hmem ⊢
      by_cases h1 : c.RouteServiceEnabled = true
      · cases h2 : env.NewAesGCM (env.NewPbkdf2 (goBytes c.RouteServiceSecret) 16) with
        | error e => simp [h1, h2, hP3]
        | ok k =>
          by_cases h3 : c.RouteServiceSecretPrev = ""
          · simp [h1, h2, h3, hP1, (hA _ _).1] at hmem
            rw [hmem, h2] at herr
            cases herr
          · cases h4 : env.NewAesGCM (env.NewPbkdf2 (goBytes c.RouteServiceSecretPrev) 16) with
            | error e => simp [h1, h2, h3, h4, hP3]
            | ok kPrev =>
              simp [h1, h2, h3, h4, hP1, (hA _ _).1] at hmem
              rcases hmem with hmem | hmem
              · rw [hmem, h2] at herr
                cases herr
              · rw [hmem, h4] at herr
                cases herr
      · simp [h1, hP1, (hA _ _).1] at hmem
    · rw [ht] at hmem
      exact absurd hmem (hP1 key)

theorem filter_eq_nil_of_all_false (p : Event → Bool) (l : List Event)
    (h : ∀ e ∈ l, p e = false) : l.filter p = [] := by
  induction l with
  | nil => rfl
  | cons a l ih =>
    have ha : p a = false := h a (List.mem_cons_self a l)
    have hl : ∀ e ∈ l, p e = false := fun e he => h e (List.mem_cons_of_mem a he)
    simp [List.filter_cons, ha, ih hl]

/-- C3: whenever `main` calls `proxy.NewProxy`, the crypto and proxy calls it
has made are, in order: `createCrypto` on `RouteServiceSecret` exactly when
route services are enabled, `createCrypto` on `RouteServiceSecretPrev` exactly
when they are enabled and that secret is non-empty, and one `NewProxy`; the
first cipher is in the `Crypto` slot, the second in the `CryptoPrev` slot, and
a cipher that was not created is nil. -/
theorem C3_two_route_service_keys (env : Env) (configFile : String) (args : ProxyArgs)
    (h : Event.newProxy args ∈ (main env configFile).trace) :
    (main env configFile).trace.filter Event.isCryptoOrProxy =
      (if (mainConfig env configFile).RouteServiceEnabled = true then
        [.newPbkdf2 (goBytes (mainConfig env configFile).RouteServiceSecret) 16,
          .newAesGCM (env.NewPbkdf2 (goBytes (mainConfig env configFile).RouteServiceSecret) 16)] ++
        (if (mainConfig env configFile).RouteServiceSecretPrev ≠ "" then
          [.newPbkdf2 (goBytes (mainConfig env configFile).RouteServiceSecretPrev) 16,
            .newAesGCM
              (env.NewPbkdf2 (goBytes (mainConfig env configFile).RouteServiceSecretPrev) 16)]
        else [])
      else []) ++ [.newProxy args] ∧
    ((mainConfig env configFile).RouteServiceEnabled = true →
      ∃ k, env.NewAesGCM
          (env.NewPbkdf2 (goBytes (mainConfig env configFile).RouteServiceSecret) 16) = .ok k ∧
        args.Crypto = some k) ∧
    ((mainConfig env configFile).RouteServiceEnabled = true →
      (mainConfig env configFile).RouteServiceSecretPrev ≠ "" →
      ∃ k, env.NewAesGCM
          (env.NewPbkdf2 (goBytes (mainConfig env configFile).RouteServiceSecretPrev) 16) = .ok k ∧
        args.CryptoPrev = some k) ∧
    (args.Crypto.isSome = true ↔ (mainConfig env configFile).RouteServiceEnabled = true) ∧
    (args.CryptoPrev.isSome = true ↔
      ((mainConfig env configFile).RouteServiceEnabled = true ∧
        (mainConfig env configFile).RouteServiceSecretPrev ≠ "")) ∧
    ((mainConfig env configFile).RouteServiceEnabled = false →
      args.Crypto = none ∧ args.CryptoPrev = none) := by
  have hP := mainStartUp_no_crypto env configFile
  have hPf := filter_eq_nil_of_all_false Event.isCryptoOrProxy _
    (fun e he => (mainStartUp_events env configFile e he).1)
  rw [main_eq] at h ⊢
  rcases Run.bind_cases (mainStartUp env configFile) (mainAfterStartUp env) with
    ⟨s, hs, ht, -⟩ | ⟨ht, -⟩
  · have hc := (mainStartUp_ret env configFile s hs).1
    obtain ⟨c, lc, lg, nc, reg, vz, rep, al⟩ := s
    simp only at hc
    subst hc
    have hA := fun k kp => mainAfterProxy_no_crypto env lg (mainConfig env configFile) nc reg vz lc
      (env.NewProxy (buildProxyArgs lg (mainConfig env configFile) reg al rep k kp))
    have hAf := fun k kp => filter_eq_nil_of_all_false Event.isCryptoOrProxy _
      (mainAfterProxy_events env lg (mainConfig env configFile) nc reg vz lc
        (env.NewProxy (buildProxyArgs lg (mainConfig env configFile) reg al rep k kp)))
    rw [ht] at h ⊢
    rw [mainAfterStartUp_eq] at h ⊢
    by_cases h1 : (mainConfig env configFile).RouteServiceEnabled = true
    · cases h2 : env.NewAesGCM
          (env.NewPbkdf2 (goBytes (mainConfig env configFile).RouteServiceSecret) 16) with
      | error e => simp [h1, h2, hP.2.2] at h
      | ok k =>
        by_cases h3 : (mainConfig env configFile).RouteServiceSecretPrev = ""
        · simp [h1, h2, h3, hP.2.2, (hA _ _).2.2] at h
          subst h
          refine ⟨?_, ?_⟩
          · simp [h1, h3, hPf, hAf, List.filter_cons, Event.isCryptoOrProxy]
          · simp [h1, h2, h3, buildProxyArgs]
        · cases h4 : env.NewAesGCM
              (env.NewPbkdf2 (goBytes (mainConfig env configFile).RouteServiceSecretPrev) 16) with
          | error e => simp [h1, h2, h3, h4, hP.2.2] at h
          | ok kPrev =>
            simp [h1, h2, h3, h4, hP.2.2, (hA _ _).2.2] at h
            subst h
            refine ⟨?_, ?_⟩
            · simp [h1, h3, hPf, hAf, List.filter_cons, Event.isCryptoOrProxy]
            · simp [h1, h2, h3, h4, buildProxyArgs]
    · simp [h1, hP.2.2, (hA _ _).2.2] at h
      subst h
      refine ⟨?_, ?_⟩
      · simp [h1, hPf, hAf, List.filter_cons, Event.isCryptoOrProxy]
      · simp [h1, buildProxyArgs]
  · rw [ht] at h
    exact absurd h (hP.2.2 args)

theorem mainAfterRouter_spec (env : Env) (logger : Logger) (c : Config) (registry : Registry)
    (router : Router) : TailSpec env c (mainAfterRouter env logger c registry router) := by
  unfold TailSpec mainAfterRouter mainMembers setupRouteFetcher mainRunGroup
  rw [newUaaClient_eq]
  by_cases h1 : env.RoutingApiEnabled c = true
  · by_cases h2 : c.RoutingApi.AuthDisabled = true
    · cases h4 : env.FetchToken env.NewNoOpUaaClient false with
      | error e4 =>
        simp [h1, h2, h4, emit, osExit, Run.pure_def, Logger.Error, Logger.Info]
      | ok token =>
        cases h5 : env.FetchRoutes (fetcherOf env logger c registry env.NewNoOpUaaClient) with
        | some e5 =>
          unfold fetcherOf at h5
          simp [h1, h2, h4, h5, emit, osExit, Run.pure_def, Logger.Error, Logger.Info]
        | none =>
          unfold fetcherOf at h5
          cases hm : env.monitorWait [{ Name := "router", Runner := .router router },
              { Name := "router-fetcher",
                Runner := .routeFetcher (fetcherOf env logger c registry env.NewNoOpUaaClient) }] <;>
            unfold fetcherOf at hm <;>
            simp [h1, h2, h4, h5, hm, emit, osExit, Run.pure_def, Logger.Error, Logger.Info] <;>
            exact ⟨fun client err hc => by rw [hc, h4]; simp,
              fun fetcher err hf => by rw [hf, h5]; simp⟩
    · by_cases h3 : c.OAuth.Port = -1
      · simp [h1, h2, h3, emit, osExit, Run.pure_def, Logger.Error, Logger.Info]
      · cases h6 : env.NewClient logger (uaaConfigOf c) with
        | error e6 =>
          simp [h1, h2, h3, h6, emit, osExit, Run.pure_def, Logger.Error, Logger.Info]
        | ok cl =>
          cases h4 : env.FetchToken cl false with
            | error e4 =>
              simp [h1, h2, h3, h6, h4, emit, osExit, Run.pure_def, Logger.Error, Logger.Info]
            | ok token =>
              cases h5 : env.FetchRoutes (fetcherOf env logger c registry cl) with
              | some e5 =>
                unfold fetcherOf at h5
                simp [h1, h2, h3, h6, h4, h5, emit, osExit, Run.pure_def, Logger.Error, Logger.Info]
              | none =>
                unfold fetcherOf at h5
                cases hm : env.monitorWait [{ Name := "router", Runner := .router router },
                    { Name := "router-fetcher",
                      Runner := .routeFetcher (fetcherOf env logger c registry cl) }] <;>
                  unfold fetcherOf at hm <;>
                  simp [h1, h2, h3, h6, h4, h5, hm, emit, osExit, Run.pure_def, Logger.Error, Logger.Info] <;>
            exact ⟨fun client err hc => by rw [hc, h4]; simp,
              fun fetcher err hf => by rw [hf, h5]; simp⟩
  · cases hm : env.monitorWait [{ Name := "router", Runner := .router router }] <;>
      simp [h1, hm, emit, osExit, Run.pure_def, Logger.Error]

theorem TailSpec_append (env : Env) (c : Config) (pre : List Event) (T : Run Unit)
    (hpre : ∀ e ∈ pre, e.isFetcherOrGroup = false) (hT : TailSpec env c T) :
    TailSpec env c ⟨pre ++ T.trace, T.out⟩ := by
  have h1 : ∀ client force, Event.fetchToken client force ∉ pre :=
    fun client force h => absurd (hpre _ h) (by simp [Event.isFetcherOrGroup])
  have h2 : ∀ fetcher, Event.fetchRoutes fetcher ∉ pre :=
    fun fetcher h => absurd (hpre _ h) (by simp [Event.isFetcherOrGroup])
  have h3 : ∀ members, Event.newOrdered members ∉ pre :=
    fun members h => absurd (hpre _ h) (by simp [Event.isFetcherOrGroup])
  have h4 : Event.invoke ∉ pre :=
    fun h => absurd (hpre _ h) (by simp [Event.isFetcherOrGroup])
  simpa [TailSpec, List.mem_append, h1, h2, h3, h4] using hT

theorem TailSpec_of_none (env : Env) (c : Config) (T : Run Unit)
    (hT : ∀ e ∈ T.trace, e.isFetcherOrGroup = false) : TailSpec env c T := by
  have h1 : ∀ client force, Event.fetchToken client force ∉ T.trace :=
    fun client force h => absurd (hT _ h) (by simp [Event.isFetcherOrGroup])
  have h2 : ∀ fetcher, Event.fetchRoutes fetcher ∉ T.trace :=
    fun fetcher h => absurd (hT _ h) (by simp [Event.isFetcherOrGroup])
  have h3 : ∀ members, Event.newOrdered members ∉ T.trace :=
    fun members h => absurd (hT _ h) (by simp [Event.isFetcherOrGroup])
  simp [TailSpec, h1, h2, h3]

theorem TailSpec_bind {α : Type} (env : Env) (c : Config) (x : Run α) (f : α → Run Unit)
    (hx : x.All (fun e => e.isFetcherOrGroup = false))
    (hf : ∀ a, x.out = .ret a → TailSpec env c (f a)) : TailSpec env c (x >>= f) := by
  rcases Run.bind_cases x f with ⟨a, ha, ht, ho⟩ | ⟨ht, -⟩
  · have h := TailSpec_append env c x.trace (f a) hx (hf a ha)
    rw [← ht, ← ho] at h
    exact h
  · apply TailSpec_of_none
    rw [ht]
    exact hx

theorem buildProxy_events (env : Env) (logger : Logger) (c : Config) (registry : Registry)
    (accessLogger : AccessLogger) (reporter : Reporter) (crypto cryptoPrev : Option AesGCM) :
    (buildProxy env logger c registry accessLogger reporter crypto cryptoPrev).All
      (fun e => e.isFetcherOrGroup = false) := by
  intro e he
  simp [buildProxy, emit, Run.pure_def] at he
  subst he
  rfl

theorem main_tailSpec (env : Env) (configFile : String) :
    TailSpec env (mainConfig env configFile) (main env configFile) := by
  rw [main_eq]
  apply TailSpec_bind
  · exact fun e he => (mainStartUp_events env configFile e he).2
  · intro s hs
    have hc := (mainStartUp_ret env configFile s hs).1
    obtain ⟨c, lc, lg, nc, reg, vz, rep, al⟩ := s
    simp only at hc
    subst hc
    show TailSpec env _ (mainRouteServiceCrypto env lg _ >>= _)
    apply TailSpec_bind
    · exact mainRouteServiceCrypto_events _ _ _
    · rintro ⟨crypto, cryptoPrev⟩ -
      show TailSpec env _ (buildProxy env lg _ reg al rep crypto cryptoPrev >>= _)
      apply TailSpec_bind
      · exact buildProxy_events _ _ _ _ _ _ _ _
      · intro proxy _
        show TailSpec env _ (mainNewRouter env lg _ proxy nc reg vz lc >>= _)
        apply TailSpec_bind
        · exact fun e he => (mainNewRouter_events _ _ _ _ _ _ _ _ e he).2
        · intro router _
          exact mainAfterRouter_spec env lg _ reg router

/-- C5: in `main`, with the routing API disabled neither `FetchToken` nor
`FetchRoutes` is called and a process group is built from the router alone;
with it enabled, a failing `FetchToken` or `FetchRoutes` call ends the process
with exit status 1 and no process group is built or started, and a process
group is built only after both succeeded, from the router and the route
fetcher in that order. -/
theorem C5_route_fetcher_startup (env : Env) (configFile : String) :
    (env.RoutingApiEnabled (mainConfig env configFile) = false →
      (∀ client force, Event.fetchToken client force ∉ (main env configFile).trace) ∧
      (∀ fetcher, Event.fetchRoutes fetcher ∉ (main env configFile).trace) ∧
      (∀ members, Event.newOrdered members ∈ (main env configFile).trace →
        ∃ router, members = [{ Name := "router", Runner := .router router }])) ∧
    (env.RoutingApiEnabled (mainConfig env configFile) = true →
      (∀ client force err, Event.fetchToken client force ∈ (main env configFile).trace →
        env.FetchToken client force = .error err →
        (main env configFile).out = .exit 1 ∧
          (∀ members, Event.newOrdered members ∉ (main env configFile).trace) ∧
          Event.invoke ∉ (main env configFile).trace) ∧
      (∀ fetcher err, Event.fetchRoutes fetcher ∈ (main env configFile).trace →
        env.FetchRoutes fetcher = some err →
        (main env configFile).out = .exit 1 ∧
          (∀ members, Event.newOrdered members ∉ (main env configFile).trace) ∧
          Event.invoke ∉ (main env configFile).trace) ∧
      (∀ members, Event.newOrdered members ∈ (main env configFile).trace →
        ∃ router client fetcher,
          Event.fetchToken client false ∈ (main env configFile).trace ∧
          (∃ token, env.FetchToken client false = .ok token) ∧
          Event.fetchRoutes fetcher ∈ (main env configFile).trace ∧
          env.FetchRoutes fetcher = none ∧
          members = [{ Name := "router", Runner := .router router },
            { Name := "router-fetcher", Runner := .routeFetcher fetcher }])) :=
  main_tailSpec env configFile

/-! ## The theorems at sample inputs -/

/-- C2 at the sample environment whose AES rejects every key: `main` exits with status 1 before any `NewProxy`. -/
theorem C2_crypto_failure_aborts_witness :
    Event.newAesGCM (sampleKdf (goBytes "secret") 16) ∈ (main sampleEnvBadKey "").trace ∧
    (main sampleEnvBadKey "").out = .exit 1 ∧
    ∀ args, Event.newProxy args ∉ (main sampleEnvBadKey "").trace :=
  ⟨by decide,
    (C2_crypto_failure_aborts sampleEnvBadKey sampleLogger "secret" "").2.2
      (sampleKdf (goBytes "secret") 16) "crypto/aes: invalid key size" (by decide) rfl⟩

/-- C3 at the sample environment: `main` reaches `NewProxy` with both ciphers set. -/
theorem C3_two_route_service_keys_witness :
    Event.newProxy sampleProxyArgs ∈ (main (sampleEnv 0) "").trace ∧
    (sampleProxyArgs.Crypto.isSome = true ↔
      (mainConfig (sampleEnv 0) "").RouteServiceEnabled = true) ∧
    (sampleProxyArgs.CryptoPrev.isSome = true ↔
      ((mainConfig (sampleEnv 0) "").RouteServiceEnabled = true ∧
        (mainConfig (sampleEnv 0) "").RouteServiceSecretPrev ≠ "")) :=
  ⟨by decide,
    (C3_two_route_service_keys (sampleEnv 0) "" sampleProxyArgs (by decide)).2.2.2.1,
    (C3_two_route_service_keys (sampleEnv 0) "" sampleProxyArgs (by decide)).2.2.2.2.1⟩

/-- C5 at the sample environment whose routing API cannot be reached: exit status 1 and no process group. -/
theorem C5_route_fetcher_startup_witness :
    Event.fetchRoutes { id := 0 } ∈ (main sampleEnvNoRoutingApi "").trace ∧
    (main sampleEnvNoRoutingApi "").out = .exit 1 ∧
    (∀ members, Event.newOrdered members ∉ (main sampleEnvNoRoutingApi "").trace) ∧
    Event.invoke ∉ (main sampleEnvNoRoutingApi "").trace :=
  ⟨by decide,
    ((C5_route_fetcher_startup sampleEnvNoRoutingApi "").2 (by decide)).2.1 { id := 0 }
      "routing api unavailable" (by decide) rfl⟩

/-- C6 at the sample configuration: the endpoint handed to `NewClient`. -/
theorem C6_newUaaClient_aborts_iff_witness :
    ∃ cfg : UaaConfig,
      (newUaaClient (sampleEnv 0) sampleLogger sampleConfig).trace.head? = some (.newClient cfg) ∧
      cfg.UaaEndpoint = "https://uaa.example.com:8443" :=
  have h := (C6_newUaaClient_aborts_iff (sampleEnv 0) sampleLogger sampleConfig).2.2
    (by decide) (by decide)
  h.imp fun _ hc => ⟨hc.1, hc.2.2.2.1.trans (by decide)⟩

/-- C8 at the sample environment whose first two `Connect` calls fail: the third connection is returned after three calls. -/
theorem C8_connect_at_most_three_witness :
    ∃ client, (connectToNatsServer (sampleEnv 2) sampleLogger sampleConfig).out = .ret client ∧
      client.conn = { id := 2 } ∧
      connectCalls (connectToNatsServer (sampleEnv 2) sampleLogger sampleConfig).trace = 2 + 1 ∧
      Event.addClosedCB { id := 2 } ∈
        (connectToNatsServer (sampleEnv 2) sampleLogger sampleConfig).trace :=
  (C8_connect_at_most_three (sampleEnv 2) sampleLogger sampleConfig).2.2.1 2 { id := 2 }
    (by decide) rfl
    (fun j hj => ⟨"nats: no servers available", by
      have h : j = 0 ∨ j = 1 := by omega
      rcases h with h | h <;> subst h <;> rfl⟩)

/-- C10 at the sample configuration: stdout, syslog and the log counter. -/
theorem C10_InitLoggerFromConfig_sinks_witness :
    ∃ sinks : List Sink,
      InitLoggerFromConfig (sampleEnv 0) sampleConfig { id := 0 } =
        ⟨[.stenoInit { Sinks := sinks, Level := { name := "info" } }], .ret ()⟩ ∧
      sinks = [Sink.stdout, Sink.syslog "vcap.gorouter", Sink.counter { id := 0 }] :=
  have h := (C10_InitLoggerFromConfig_sinks (sampleEnv 0) sampleConfig { id := 0 }).2
    { name := "info" } rfl
  h.imp fun _ hs => ⟨hs.1, hs.2.1.trans (by decide)⟩

end Gorouter
